import Mathlib

/-!
Verification development for the venue auto-seeding pipeline of the
tokyo2025 travel-companion repository (scripts/init-seed.ts and the
/api/seed HTTP trigger).

The TypeScript source is shallowly embedded: the upstream Google Places
API is an oracle of fixed responses, the D1 `venues` table is a list of
rows, JavaScript string/number falsiness (`x || y`) is made explicit,
and exceptions become `Except`.  Fields of upstream records that the
seeding pipeline never reads (`geometry`, `photos`, unused detail
fields) are omitted; `setTimeout` rate-limit delays have no observable
effect in a sequential functional model and are dropped.
-/

namespace Seeding

/-- JavaScript `hay.includes(need)` at the character level:
does `need` occur as a contiguous substring of `hay`?
(`String.prototype.includes` works on UTF-16 code units; for the ASCII
district names used by the pipeline the two notions coincide.) -/
def startsWithChars : List Char → List Char → Bool
  | [], _ => true
  | _ :: _, [] => false
  | a :: as, b :: bs => a = b && startsWithChars as bs

/-- Scan of all suffixes of the haystack for a prefix match. -/
def containsChars (need : List Char) : List Char → Bool
  | [] => startsWithChars need []
  | c :: rest => startsWithChars need (c :: rest) || containsChars need rest

/-- JavaScript `hay.includes(need)`. -/
def strIncludes (hay need : String) : Bool :=
  containsChars need.data hay.data

/-- JavaScript `s.substring(0, n)`: the first `n` characters of `s`
(modelled on Unicode characters; the source measures UTF-16 code units,
which agrees for the strings the claims are about). -/
def jsSubstring (s : String) (n : Nat) : String :=
  String.mk (s.data.take n)

/-- Association-list lookup used for the category `Record` object
(`categoryMap[type]` in the source). -/
def lookupStr (k : String) : List (String × String) → Option String
  | [] => none
  | (a, b) :: rest => if k = a then some b else lookupStr k rest

/-- The fixed `categoryMap` of `VenueSeeder.mapCategory`. -/
def categoryMap : List (String × String) :=
  [ ("shopping_mall", "Shopping Mall"),
    ("department_store", "Department Store"),
    ("clothing_store", "Fashion Boutique"),
    ("jewelry_store", "Jewelry & Luxury"),
    ("restaurant", "Restaurant"),
    ("cafe", "Cafe"),
    ("bar", "Bar"),
    ("night_club", "Nightlife"),
    ("tourist_attraction", "Tourist Attraction"),
    ("museum", "Museum"),
    ("art_gallery", "Art Gallery"),
    ("park", "Park"),
    ("spa", "Spa & Wellness"),
    ("store", "Shopping") ]

/-- Embeds `VenueSeeder.mapCategory`: first type tag found in `categoryMap`
wins (all mapped values are non-empty strings, so the JavaScript
truthiness test `if (categoryMap[type])` is presence in the map);
fallback is the generic category. -/
def mapCategory : List String → String
  | [] => "Venue"
  | t :: rest =>
    match lookupStr t categoryMap with
    | some c => c
    | none => mapCategory rest

/-- The Tokyo district list of `VenueSeeder.extractDistrict`, in source
order. -/
def districts : List String :=
  [ "Ginza", "Shibuya", "Shinjuku", "Roppongi", "Harajuku",
    "Asakusa", "Akihabara", "Ikebukuro", "Ueno", "Odaiba",
    "Chuo", "Koto", "Minato", "Chiyoda" ]

/-- The Osaka district list of `VenueSeeder.extractDistrict`, in source
order. -/
def osakaDistricts : List String :=
  [ "Namba", "Umeda", "Dotonbori", "Shinsaibashi", "Tennoji",
    "Osaka", "Kita", "Chuo", "Minami" ]

/-- One `for (district of list) if (fullAddress.includes(district))`
loop: the first list entry occurring in the address, if any. -/
def firstIncluded (fullAddress : String) : List String → Option String
  | [] => none
  | d :: rest =>
    if strIncludes fullAddress d then some d else firstIncluded fullAddress rest

/-- JavaScript `address || vicinity` for an optional `address`
parameter: the address when it is present and non-empty (truthy), the
vicinity otherwise. -/
def fullAddressOf (vicinity : String) (address : Option String) : String :=
  match address with
  | some a => if a = "" then vicinity else a
  | none => vicinity

/-- Embeds `VenueSeeder.extractDistrict(vicinity, address?)`: the Tokyo loop,
then the Osaka loop, then the generic fallback. -/
def extractDistrict (vicinity : String) (address : Option String) : String :=
  let fullAddress := fullAddressOf vicinity address
  match firstIncluded fullAddress districts with
  | some d => d
  | none =>
    match firstIncluded fullAddress osakaDistricts with
    | some d => d
    | none => "Central"

/-- A search-result item from the upstream text-search endpoint
(`GooglePlaceResult`).  `geometry` and `photos` are never read by the
seeding pipeline and are omitted; `rating` is optional upstream.
Ratings are modelled as rationals (the source holds JavaScript
numbers). -/
structure GooglePlaceResult where
  place_id : String
  name : String
  types : List String
  vicinity : String
  rating : Option Rat
deriving DecidableEq

/-- The body of one text-search response (`GooglePlacesResponse`);
`results` may be absent (`data.results || []` in the source). -/
structure GooglePlacesResponse where
  results : Option (List GooglePlaceResult)
  status : String
deriving DecidableEq

/-- The enrichment fields of a place-details result that
`convertToVenue` reads: `formatted_address` and
`editorial_summary.overview`, each individually optional. -/
structure PlaceDetails where
  formatted_address : Option String
  editorial_summary_overview : Option String
deriving DecidableEq

/-- The body of one place-details response: its `status` and its
`result` (absent when the upstream returned none). -/
structure PlaceDetailsResponse where
  status : String
  result : Option PlaceDetails
deriving DecidableEq

/-- A row of the `venues` table as built by the seeder. -/
structure Venue where
  name : String
  category : String
  district : String
  description : String
  map_url : String
  rating : Rat
deriving DecidableEq

/-- The fixed upstream responses for one run: one text-search response
per (query, location, radius) triple and one details response per
place id.  Network calls in the source become lookups in this
oracle. -/
structure Upstream where
  search : String → String → Nat → GooglePlacesResponse
  details : String → PlaceDetailsResponse

/-- Status check and result extraction of `VenueSeeder.searchPlaces`:
an error for any status other than OK / ZERO_RESULTS, otherwise the
(possibly empty) result list. -/
def searchPlacesResp (data : GooglePlacesResponse) :
    Except String (List GooglePlaceResult) :=
  if data.status ≠ "OK" ∧ data.status ≠ "ZERO_RESULTS" then
    Except.error ("Google Places API error: " ++ data.status)
  else
    Except.ok (data.results.getD [])

/-- Embeds `VenueSeeder.searchPlaces(query, location, radius)` against the
oracle. -/
def searchPlaces (u : Upstream) (query location : String) (radius : Nat) :
    Except String (List GooglePlaceResult) :=
  searchPlacesResp (u.search query location radius)

/-- Embeds `VenueSeeder.getPlaceDetails(placeId)`: null (modelled `none`) on
any non-OK status, the result otherwise.  A JavaScript `undefined`
result on an OK status behaves exactly like the returned `null` in the
one consumer (`details?.field`), so both are `none`. -/
def getPlaceDetails (u : Upstream) (placeId : String) : Option PlaceDetails :=
  let data := u.details placeId
  if data.status ≠ "OK" then none else data.result

/-- The description source `details?.editorial_summary?.overview` of
`convertToVenue`. -/
def overviewOf (details : Option PlaceDetails) : Option String :=
  match details with
  | none => none
  | some d => d.editorial_summary_overview

/-- Embeds `VenueSeeder.convertToVenue(place)` given the already-fetched
details (`getPlaceDetails` result).  The description is
`overview || name - category` truncated to 500, the district comes
from `vicinity` with the enriched `formatted_address` preferred, and
the rating is `place.rating || 0`. -/
def convertToVenue (details : Option PlaceDetails) (place : GooglePlaceResult) :
    Venue :=
  let fallback := place.name ++ " - " ++ mapCategory place.types
  let description :=
    match overviewOf details with
    | some s => if s = "" then fallback else s
    | none => fallback
  let mapUrl := "https://www.google.com/maps/place/?q=place_id:" ++ place.place_id
  { name := place.name
    category := mapCategory place.types
    district :=
      extractDistrict place.vicinity
        (match details with
         | none => none
         | some d => d.formatted_address)
    description := jsSubstring description 500
    map_url := mapUrl
    rating :=
      match place.rating with
      | none => 0
      | some r => if r = 0 then 0 else r }

/-- The `venues` table, in insertion order. -/
abbrev DB := List Venue

/-- The dedupe lookup of `VenueSeeder.insertVenue`
(`SELECT id FROM venues WHERE name = ? AND district = ?`). -/
def venueExists (db : DB) (name district : String) : Bool :=
  db.any (fun v => v.name = name && v.district = district)

/-- Embeds `VenueSeeder.insertVenue`: skip when the (name, district) pair
already exists, append the row otherwise. -/
def insertVenue (db : DB) (venue : Venue) : DB :=
  if venueExists db venue.name venue.district then db
  else db ++ [venue]

/-- The inner candidate loop of `VenueSeeder.seedArea`: convert each
place, insert-or-skip, and increment `totalInserted` after every
attempt.  The source increments unconditionally after `insertVenue`
returns, whether or not a row was added.  (The surrounding
`try`/`catch` only fires on storage or network exceptions, which the
pure model of a functioning store cannot raise.) -/
def processPlaces (u : Upstream) : DB → Nat → List GooglePlaceResult → DB × Nat
  | db, count, [] => (db, count)
  | db, count, place :: rest =>
    let venue := convertToVenue (getPlaceDetails u place.place_id) place
    processPlaces u (insertVenue db venue) (count + 1) rest

/-- The query loop of `VenueSeeder.seedArea`: a failed search is caught
(`console.error`) and the loop continues with the next query; a
successful search processes the top 5 places. -/
def seedAreaGo (u : Upstream) (location : String) (radius : Nat) :
    List String → DB → Nat → DB × Nat
  | [], db, count => (db, count)
  | query :: rest, db, count =>
    match searchPlaces u query location radius with
    | Except.error _ => seedAreaGo u location radius rest db count
    | Except.ok places =>
      let next := processPlaces u db count (places.take 5)
      seedAreaGo u location radius rest next.1 next.2

/-- Embeds `VenueSeeder.seedArea(queries, location, radius)`: the final table
and the returned `totalInserted` counter. -/
def seedArea (u : Upstream) (queries : List String) (location : String)
    (radius : Nat) (db : DB) : DB × Nat :=
  seedAreaGo u location radius queries db 0

/-- The Ginza query catalog of `seedGinza`, in source order. -/
def ginzaQueries : List String :=
  [ "luxury shopping Ginza Tokyo",
    "department store Ginza",
    "designer boutique Ginza",
    "jewelry store Ginza",
    "high-end restaurant Ginza",
    "sushi restaurant Ginza",
    "Ginza shopping mall",
    "Ginza art gallery",
    "Ginza Six",
    "Mitsukoshi Ginza",
    "Ginza Wako",
    "Dover Street Market Ginza" ]

/-- The Osaka query catalog of `seedOsaka`, in source order. -/
def osakaQueries : List String :=
  [ "shopping Dotonbori Osaka",
    "restaurant Namba Osaka",
    "Shinsaibashi shopping",
    "Umeda department store",
    "takoyaki Dotonbori",
    "okonomiyaki Osaka",
    "Osaka Castle",
    "Kuromon Market Osaka",
    "nightlife Namba",
    "Osaka street food",
    "Amerikamura shopping",
    "Tennoji shopping" ]

/-- Embeds `VenueSeeder.seedGinza()`. -/
def seedGinza (u : Upstream) (db : DB) : DB × Nat :=
  seedArea u ginzaQueries "35.6717,139.7647" 1500 db

/-- Embeds `VenueSeeder.seedOsaka()`. -/
def seedOsaka (u : Upstream) (db : DB) : DB × Nat :=
  seedArea u osakaQueries "34.6937,135.5023" 2000 db

/-- The statistics snapshot of `VenueSeeder.getStats()`: total row
count and counts grouped by category and by district.  Grouping keys
are listed in first-appearance order; the SQL `ORDER BY count DESC`
presentation order (with backend-defined tie order) is not modelled,
as no property depends on it. -/
structure Stats where
  total : Nat
  byCategory : List (String × Nat)
  byDistrict : List (String × Nat)
deriving DecidableEq

/-- SQL `GROUP BY` of a column: each distinct value with its row count. -/
def groupCounts (l : List String) : List (String × Nat) :=
  l.dedup.map (fun k => (k, l.count k))

/-- Embeds `VenueSeeder.getStats()`. -/
def getStats (db : DB) : Stats :=
  { total := db.length
    byCategory := groupCounts (db.map (fun v => v.category))
    byDistrict := groupCounts (db.map (fun v => v.district)) }

/-- The two supported areas of `seedDatabase`. -/
inductive Area where
  | ginza
  | osaka
deriving DecidableEq

/-- The `results` object returned by `seedDatabase` on its happy path.
The storage sink of the pure model never throws, so the `catch` branch
(`success := false`, fatal message pushed onto `errors`) is
unreachable and `errors` stays the initial `[]`. -/
structure RunResult where
  ginza : Nat
  osaka : Nat
  errors : List String
  stats : Stats
  total : Nat
  success : Bool
deriving DecidableEq

/-- Embeds `seedDatabase(apiKey, db, areas)`: seed Ginza when selected, then
Osaka, then take the statistics snapshot.  Returns the final table and
the `results` object. -/
def seedDatabase (u : Upstream) (areas : List Area) (db : DB) :
    DB × RunResult :=
  let g := if Area.ginza ∈ areas then seedGinza u db else (db, 0)
  let o := if Area.osaka ∈ areas then seedOsaka u g.1 else (g.1, 0)
  ( o.1,
    { ginza := g.2
      osaka := o.2
      errors := []
      stats := getStats o.1
      total := g.2 + o.2
      success := true } )

/-- JavaScript truthiness of an optional string: present and
non-empty. -/
def jsTruthy : Option String → Bool
  | none => false
  | some s => s ≠ ""

/-- The parsed JSON body of `POST /api/seed` (a failed parse yields
`{}`, i.e. both fields absent). -/
structure SeedRequestBody where
  areas : Option (List Area)
  apiKey : Option String

/-- The environment of the seed route: the optional
`GOOGLE_PLACES_API_KEY` secret and whether the `DB` binding is
configured. -/
structure SeedEnv where
  googlePlacesApiKey : Option String
  hasDB : Bool

/-- JavaScript `bodyApiKey || env.GOOGLE_PLACES_API_KEY` from the route
handler. -/
def effectiveApiKey (body : SeedRequestBody) (env : SeedEnv) : Option String :=
  if jsTruthy body.apiKey then body.apiKey else env.googlePlacesApiKey

/-- The observable part of a seed-route response: the HTTP status, the
`success` flag when the envelope has one, and the `errors` list when
the envelope has one (the 400/500 envelopes have neither). -/
structure SeedPostResponse where
  status : Nat
  success : Option Bool
  errors : Option (List String)
deriving DecidableEq

/-- The `POST /api/seed` handler.  `run` stands for the awaited
`seedDatabase` call: `Except.error` models the call throwing before
producing any result (e.g. an unreachable storage sink), which lands
in the handler's `catch`. -/
def postSeed (body : SeedRequestBody) (env : SeedEnv)
    (run : Except String RunResult) : SeedPostResponse :=
  if ¬ jsTruthy (effectiveApiKey body env) then
    { status := 400, success := none, errors := none }
  else if ¬ env.hasDB then
    { status := 500, success := none, errors := none }
  else
    match run with
    | Except.error _ => { status := 500, success := none, errors := none }
    | Except.ok results =>
      { status := 200, success := some results.success,
        errors := some results.errors }


/-! ## Derived definitions used by the statements

The seeding loops are summarized by the list of venues a run converts,
in processing order: the table left behind is a fold of `insertVenue`
over that list and the returned counter is that list's length. -/

/-- The venues converted from a list of search results. -/
def placeVenues (u : Upstream) (places : List GooglePlaceResult) : List Venue :=
  places.map fun place => convertToVenue (getPlaceDetails u place.place_id) place

/-- The venues one query contributes: none when its search fails, the
conversions of its top 5 places otherwise. -/
def queryVenues (u : Upstream) (query location : String) (radius : Nat) :
    List Venue :=
  match searchPlaces u query location radius with
  | Except.error _ => []
  | Except.ok places => placeVenues u (places.take 5)

/-- The venues an area's query list contributes, in processing order. -/
def areaVenues (u : Upstream) (location : String) (radius : Nat) :
    List String → List Venue
  | [] => []
  | query :: rest =>
    queryVenues u query location radius ++ areaVenues u location radius rest

/-- The venues a whole `seedDatabase` run converts, in processing
order (Ginza first when selected, then Osaka). -/
def runVenues (u : Upstream) (areas : List Area) : List Venue :=
  (if Area.ginza ∈ areas then
    areaVenues u "35.6717,139.7647" 1500 ginzaQueries
   else []) ++
  (if Area.osaka ∈ areas then
    areaVenues u "34.6937,135.5023" 2000 osakaQueries
   else [])

/-- The first type tag that appears in the lookup table, in input
order. -/
def firstMappedTag (types : List String) : Option String :=
  types.find? fun t => (lookupStr t categoryMap).isSome

/-- Follows the spec's words: the single fixed ordered district list,
the Tokyo list in its entirety before the Osaka list. -/
def allKnownDistricts : List String := districts ++ osakaDistricts

/-- Follows the spec's words: return the earliest entry of the fixed
ordered district list occurring as a substring of the address, with
the generic fallback when none occurs.  Stated to be compared with the
source-derived `extractDistrict`. -/
def specExtractDistrict (fullAddress : String) : String :=
  (allKnownDistricts.find? fun d => strIncludes fullAddress d).getD "Central"

/-- Whether a text-search response makes `searchPlaces` fail (the
status condition of the `UpstreamError`). -/
def searchFailed (data : GooglePlacesResponse) : Bool :=
  if data.status ≠ "OK" ∧ data.status ≠ "ZERO_RESULTS" then true else false

/-! ## Concrete scenarios used by closed statements -/

/-- The end-to-end scenario candidate of the spec. -/
def place4 : GooglePlaceResult :=
  { place_id := "p1", name := "Mitsukoshi Ginza", types := ["department_store"],
    vicinity := "Chuo, Ginza, Tokyo", rating := none }

/-- Fixed upstream where every search returns the single candidate
`place4` and every details lookup is denied (enrichment returns no
data). -/
def u4 : Upstream :=
  { search := fun _ _ _ => { results := some [place4], status := "OK" },
    details := fun _ => { status := "NOT_FOUND", result := none } }

/-- The venue the spec expects the `place4` scenario to insert. -/
def v4 : Venue :=
  { name := "Mitsukoshi Ginza", category := "Department Store",
    district := "Ginza",
    description := "Mitsukoshi Ginza - Department Store",
    map_url := "https://www.google.com/maps/place/?q=place_id:p1", rating := 0 }

/-- A candidate returned by the first Ginza query in the
partial-failure scenario. -/
def placeA : GooglePlaceResult :=
  { place_id := "pa", name := "Alpha Store", types := ["department_store"],
    vicinity := "Ginza, Tokyo", rating := some 4 }

/-- A candidate returned by the second Ginza query in the
partial-failure scenario. -/
def placeB : GooglePlaceResult :=
  { place_id := "pb", name := "Beta Cafe", types := ["cafe"],
    vicinity := "Shibuya, Tokyo", rating := none }

/-- Fixed upstream where the third Ginza query fails with
OVER_QUERY_LIMIT, the first two return one candidate each, and all
remaining queries return zero results. -/
def u2 : Upstream :=
  { search := fun query _ _ =>
      if query = "luxury shopping Ginza Tokyo" then
        { results := some [placeA], status := "OK" }
      else if query = "department store Ginza" then
        { results := some [placeB], status := "OK" }
      else if query = "designer boutique Ginza" then
        { results := none, status := "OVER_QUERY_LIMIT" }
      else { results := some [], status := "ZERO_RESULTS" },
    details := fun _ => { status := "NOT_FOUND", result := none } }

/-- The venue `placeA` converts to under `u2`. -/
def venueA : Venue :=
  { name := "Alpha Store", category := "Department Store", district := "Ginza",
    description := "Alpha Store - Department Store",
    map_url := "https://www.google.com/maps/place/?q=place_id:pa", rating := 4 }

/-- The venue `placeB` converts to under `u2`. -/
def venueB : Venue :=
  { name := "Beta Cafe", category := "Cafe", district := "Shibuya",
    description := "Beta Cafe - Cafe",
    map_url := "https://www.google.com/maps/place/?q=place_id:pb", rating := 0 }

/-- An empty-run `RunResult`, used to exercise the trigger model. -/
def rr0 : RunResult :=
  { ginza := 0, osaka := 0, errors := [],
    stats := { total := 0, byCategory := [], byDistrict := [] },
    total := 0, success := true }

/-! ## Helper lemmas -/

theorem string_eq_empty_iff (s : String) : s = "" ↔ s.data = [] := by
  constructor
  · intro h
    subst h
    rfl
  · intro h
    cases s with
    | mk l => cases h; rfl

theorem jsSubstring_ne_empty {s : String} {n : Nat} (hs : s ≠ "") (hn : 0 < n) :
    jsSubstring s n ≠ "" := by
  intro h
  apply hs
  rw [string_eq_empty_iff] at h ⊢
  rcases List.take_eq_nil_iff.mp h with h0 | hdat
  · omega
  · exact hdat

theorem append_sep_ne_empty (a b : String) : a ++ " - " ++ b ≠ "" := by
  intro h
  rw [string_eq_empty_iff] at h
  rw [String.data_append (a ++ " - ") b, String.data_append a " - "] at h
  simp at h

theorem lookupStr_mem {k v : String} :
    ∀ {l : List (String × String)}, lookupStr k l = some v → (k, v) ∈ l
  | [], h => by simp [lookupStr] at h
  | (a, b) :: rest, h => by
    by_cases hk : k = a
    · simp only [lookupStr, if_pos hk, Option.some.injEq] at h
      subst hk
      subst h
      exact List.mem_cons_self _ _
    · simp only [lookupStr, if_neg hk] at h
      exact List.mem_cons_of_mem _ (lookupStr_mem h)

theorem firstIncluded_mem {addr d : String} :
    ∀ {l : List String}, firstIncluded addr l = some d → d ∈ l
  | [], h => by simp [firstIncluded] at h
  | e :: rest, h => by
    by_cases he : strIncludes addr e
    · simp only [firstIncluded, if_pos he, Option.some.injEq] at h
      subst h
      exact List.mem_cons_self _ _
    · simp only [firstIncluded, if_neg he] at h
      exact List.mem_cons_of_mem _ (firstIncluded_mem h)

theorem firstIncluded_eq_none {addr : String} :
    ∀ {l : List String}, (∀ d ∈ l, strIncludes addr d = false) →
      firstIncluded addr l = none
  | [], _ => rfl
  | e :: rest, h => by
    have he := h e (List.mem_cons_self _ _)
    simp only [firstIncluded, he, if_neg Bool.false_ne_true]
    exact firstIncluded_eq_none fun d hd => h d (List.mem_cons_of_mem _ hd)

theorem firstIncluded_eq_find? (addr : String) :
    ∀ l : List String,
      firstIncluded addr l = l.find? (fun d => strIncludes addr d)
  | [] => rfl
  | e :: rest => by
    by_cases he : strIncludes addr e
    · simp [firstIncluded, List.find?_cons, he]
    · simp [firstIncluded, List.find?_cons, he, firstIncluded_eq_find? addr rest]

theorem mapCategory_ne_empty : ∀ types : List String, mapCategory types ≠ ""
  | [] => by simp [mapCategory]
  | t :: rest => by
    cases h : lookupStr t categoryMap with
    | none => simpa [mapCategory, h] using mapCategory_ne_empty rest
    | some c =>
      have hall : ∀ p ∈ categoryMap, p.2 ≠ "" := by decide
      simpa [mapCategory, h] using hall (t, c) (lookupStr_mem h)

theorem mapCategory_fallback :
    ∀ types : List String, (∀ t ∈ types, lookupStr t categoryMap = none) →
      mapCategory types = "Venue"
  | [], _ => rfl
  | t :: rest, h => by
    have ht := h t (List.mem_cons_self _ _)
    simp only [mapCategory, ht]
    exact mapCategory_fallback rest fun x hx => h x (List.mem_cons_of_mem _ hx)

theorem extractDistrict_ne_empty (vicinity : String) (address : Option String) :
    extractDistrict vicinity address ≠ "" := by
  unfold extractDistrict
  cases h1 : firstIncluded (fullAddressOf vicinity address) districts with
  | some d =>
    have hall : ∀ d ∈ districts, d ≠ "" := by decide
    simp only [h1]
    exact hall d (firstIncluded_mem h1)
  | none =>
    cases h2 : firstIncluded (fullAddressOf vicinity address) osakaDistricts with
    | some d =>
      have hall : ∀ d ∈ osakaDistricts, d ≠ "" := by decide
      simp only [h1, h2]
      exact hall d (firstIncluded_mem h2)
    | none =>
      simp only [h1, h2]
      decide

/-! ## Characterizing the seeding loops -/

theorem processPlaces_eq (u : Upstream) :
    ∀ (places : List GooglePlaceResult) (db : DB) (count : Nat),
      processPlaces u db count places =
        (List.foldl insertVenue db (placeVenues u places),
         count + places.length)
  | [], db, count => rfl
  | place :: rest, db, count => by
    simp only [processPlaces, placeVenues, List.map_cons, List.foldl_cons,
      List.length_cons]
    rw [processPlaces_eq u rest]
    simp only [placeVenues]
    have harith : count + 1 + rest.length = count + (rest.length + 1) := by omega
    rw [harith]

theorem seedAreaGo_eq (u : Upstream) (location : String) (radius : Nat) :
    ∀ (queries : List String) (db : DB) (count : Nat),
      seedAreaGo u location radius queries db count =
        (List.foldl insertVenue db (areaVenues u location radius queries),
         count + (areaVenues u location radius queries).length)
  | [], db, count => rfl
  | query :: rest, db, count => by
    simp only [seedAreaGo, areaVenues, queryVenues]
    cases hs : searchPlaces u query location radius with
    | error e =>
      simp only [List.nil_append]
      exact seedAreaGo_eq u location radius rest db count
    | ok places =>
      simp only [processPlaces_eq u (places.take 5) db count]
      rw [seedAreaGo_eq u location radius rest]
      simp [placeVenues, List.foldl_append]
      omega

theorem seedArea_eq (u : Upstream) (queries : List String) (location : String)
    (radius : Nat) (db : DB) :
    seedArea u queries location radius db =
      (List.foldl insertVenue db (areaVenues u location radius queries),
       (areaVenues u location radius queries).length) := by
  simp [seedArea, seedAreaGo_eq]

/-! ## Deduplicated insertion -/

theorem venueExists_insert_self (db : DB) (v : Venue) :
    venueExists (insertVenue db v) v.name v.district = true := by
  unfold insertVenue
  by_cases h : venueExists db v.name v.district
  · rw [if_pos h]
    exact h
  · rw [if_neg h]
    unfold venueExists
    simp only [List.any_append, Bool.or_eq_true]
    right
    simp

theorem venueExists_insert_mono {db : DB} {name district : String} (v : Venue)
    (h : venueExists db name district = true) :
    venueExists (insertVenue db v) name district = true := by
  unfold insertVenue
  by_cases hv : venueExists db v.name v.district
  · rw [if_pos hv]
    exact h
  · rw [if_neg hv]
    unfold venueExists at h ⊢
    simp only [List.any_append, Bool.or_eq_true]
    left
    exact h

theorem venueExists_foldl_mono {db : DB} {name district : String}
    (h : venueExists db name district = true) :
    ∀ vs : List Venue,
      venueExists (List.foldl insertVenue db vs) name district = true
  | [] => h
  | v :: rest => by
    simp only [List.foldl_cons]
    exact venueExists_foldl_mono (venueExists_insert_mono v h) rest

theorem venueExists_foldl_of_mem {v : Venue} :
    ∀ {vs : List Venue} (db : DB), v ∈ vs →
      venueExists (List.foldl insertVenue db vs) v.name v.district = true
  | [], _, hv => absurd hv (List.not_mem_nil v)
  | w :: rest, db, hv => by
    simp only [List.foldl_cons]
    rcases List.mem_cons.mp hv with heq | hmem
    · subst heq
      exact venueExists_foldl_mono (venueExists_insert_self db v) rest
    · exact venueExists_foldl_of_mem (insertVenue db w) hmem

theorem insertVenue_of_exists {db : DB} {v : Venue}
    (h : venueExists db v.name v.district = true) : insertVenue db v = db := by
  simp [insertVenue, h]

theorem foldl_insert_of_all_exist :
    ∀ {vs : List Venue} {db : DB},
      (∀ v ∈ vs, venueExists db v.name v.district = true) →
      List.foldl insertVenue db vs = db
  | [], _, _ => rfl
  | v :: rest, db, h => by
    have hv := h v (List.mem_cons_self _ _)
    simp only [List.foldl_cons, insertVenue_of_exists hv]
    exact foldl_insert_of_all_exist fun w hw => h w (List.mem_cons_of_mem _ hw)

theorem foldl_insert_idem (db : DB) (vs : List Venue) :
    List.foldl insertVenue (List.foldl insertVenue db vs) vs =
      List.foldl insertVenue db vs :=
  foldl_insert_of_all_exist fun _ hv => venueExists_foldl_of_mem db hv

/-! ## Characterizing a full run -/

theorem seedDatabase_fst (u : Upstream) (areas : List Area) (db : DB) :
    (seedDatabase u areas db).1 = List.foldl insertVenue db (runVenues u areas) := by
  unfold seedDatabase runVenues seedGinza seedOsaka
  by_cases hg : Area.ginza ∈ areas <;> by_cases ho : Area.osaka ∈ areas <;>
    simp [hg, ho, seedArea_eq, List.foldl_append]

theorem seedDatabase_stats (u : Upstream) (areas : List Area) (db : DB) :
    (seedDatabase u areas db).2.stats = getStats (seedDatabase u areas db).1 :=
  rfl

theorem seedDatabase_errors_nil (u : Upstream) (areas : List Area) (db : DB) :
    (seedDatabase u areas db).2.errors = [] :=
  rfl

theorem convertToVenue_description (details : Option PlaceDetails)
    (place : GooglePlaceResult) :
    (convertToVenue details place).description =
      jsSubstring
        (match overviewOf details with
         | some s =>
           if s = "" then place.name ++ " - " ++ mapCategory place.types else s
         | none => place.name ++ " - " ++ mapCategory place.types) 500 :=
  rfl

theorem queryVenues_of_failed {u : Upstream} {query location : String}
    {radius : Nat} (h1 : (u.search query location radius).status ≠ "OK")
    (h2 : (u.search query location radius).status ≠ "ZERO_RESULTS") :
    queryVenues u query location radius = [] := by
  unfold queryVenues searchPlaces searchPlacesResp
  rw [if_pos ⟨h1, h2⟩]

theorem areaVenues_eraseIdx (u : Upstream) (location : String) (radius : Nat) :
    ∀ (qs : List String) (i : Nat) (hi : i < qs.length),
      (u.search (qs.get ⟨i, hi⟩) location radius).status ≠ "OK" →
      (u.search (qs.get ⟨i, hi⟩) location radius).status ≠ "ZERO_RESULTS" →
      areaVenues u location radius qs =
        areaVenues u location radius (qs.eraseIdx i)
  | [], i, hi, _, _ => absurd hi (by simp)
  | q :: rest, 0, hi, h1, h2 => by
    have hq : (q :: rest).get ⟨0, hi⟩ = q := rfl
    rw [hq] at h1 h2
    simp only [areaVenues, List.eraseIdx]
    rw [queryVenues_of_failed h1 h2, List.nil_append]
  | q :: rest, i + 1, hi, h1, h2 => by
    have hq : (q :: rest).get ⟨i + 1, hi⟩ =
        rest.get ⟨i, Nat.lt_of_succ_lt_succ hi⟩ := rfl
    rw [hq] at h1 h2
    simp only [areaVenues, List.eraseIdx]
    rw [areaVenues_eraseIdx u location radius rest i
      (Nat.lt_of_succ_lt_succ hi) h1 h2]

/-! ## The claims -/

/-- C1: evaluation of `seedArea` at the failing input.  One query
returns one candidate whose converted (name, district) pair is already
in the table: the insert is indeed skipped (the table is unchanged),
but the source increments `totalInserted` after every processed
candidate, so `seedArea` returns 1 although 0 new rows were inserted —
against the claim (and against the counter's own name), the duplicate
skip is counted as inserted. -/
theorem c1_duplicate_skip_counted_as_inserted :
    venueExists [v4] v4.name v4.district = true ∧
    (seedArea u4 ["Mitsukoshi Ginza"] "35.6717,139.7647" 1500 [v4]).1 = [v4] ∧
    (seedArea u4 ["Mitsukoshi Ginza"] "35.6717,139.7647" 1500 [v4]).2 = 1 := by
  decide

/-- C3: re-running the full pipeline against the same fixed upstream
responses leaves the venues table unchanged — every candidate of the
second run converts to a venue whose (name, district) pair is already
present, so nothing is inserted and the total venue count after run
two equals the count after run one. -/
theorem c3_second_run_is_identity (u : Upstream) (areas : List Area) (db : DB) :
    (seedDatabase u areas ((seedDatabase u areas db).1)).1 =
      (seedDatabase u areas db).1 ∧
    (seedDatabase u areas ((seedDatabase u areas db).1)).2.stats.total =
      (seedDatabase u areas db).2.stats.total := by
  have h1 : (seedDatabase u areas ((seedDatabase u areas db).1)).1 =
      (seedDatabase u areas db).1 := by
    rw [seedDatabase_fst u areas ((seedDatabase u areas db).1),
      seedDatabase_fst u areas db, foldl_insert_idem]
  exact ⟨h1, by rw [seedDatabase_stats, seedDatabase_stats, h1]⟩

/-- C4: with a Search returning the single candidate place4
(externalId p1, rawName Mitsukoshi Ginza, typeTags department_store,
roughLocation Chuo Ginza Tokyo) and an Enrich that returns no data,
the pipeline inserts exactly the one venue v4 with name Mitsukoshi
Ginza, category Department Store, district Ginza, rating 0 and the
synthesized description; in general a candidate whose enrichment fails
still yields a venue whose description is the synthesized
name-dash-category string (truncated at 500). -/
theorem c4_enrichment_miss_end_to_end :
    (seedArea u4 ["Mitsukoshi Ginza"] "35.6717,139.7647" 1500 []).1 = [v4] ∧
    v4.name = "Mitsukoshi Ginza" ∧
    v4.category = "Department Store" ∧
    v4.district = "Ginza" ∧
    v4.rating = 0 ∧
    v4.description = "Mitsukoshi Ginza - Department Store" ∧
    ∀ place : GooglePlaceResult,
      (convertToVenue none place).description =
        jsSubstring (place.name ++ " - " ++ mapCategory place.types) 500 := by
  refine ⟨by decide, rfl, rfl, rfl, rfl, rfl, fun place => rfl⟩

/-- C5: `mapCategory` and `extractDistrict` are total Lean functions
and always return a non-empty string; when no tag is in the lookup
table the category falls back to "Venue", and when no known district
occurs in the chosen address the district falls back to "Central". -/
theorem c5_normalizer_total_nonempty :
    (∀ types : List String, mapCategory types ≠ "") ∧
    (∀ (vicinity : String) (address : Option String),
       extractDistrict vicinity address ≠ "") ∧
    (∀ types : List String,
       (∀ t ∈ types, lookupStr t categoryMap = none) →
       mapCategory types = "Venue") ∧
    (∀ (vicinity : String) (address : Option String),
       (∀ d ∈ districts,
         strIncludes (fullAddressOf vicinity address) d = false) →
       (∀ d ∈ osakaDistricts,
         strIncludes (fullAddressOf vicinity address) d = false) →
       extractDistrict vicinity address = "Central") := by
  refine ⟨mapCategory_ne_empty, extractDistrict_ne_empty, mapCategory_fallback,
    fun vicinity address h1 h2 => ?_⟩
  dsimp only [extractDistrict]
  rw [firstIncluded_eq_none h1, firstIncluded_eq_none h2]

/-- Witness for C5 at concrete inputs: an unknown tag list and an
address containing no known district substring hit the fallbacks. -/
theorem c5_normalizer_witness :
    mapCategory ["gourmet"] = "Venue" ∧
    extractDistrict "far away" none = "Central" :=
  ⟨c5_normalizer_total_nonempty.2.2.1 ["gourmet"] (by decide),
   c5_normalizer_total_nonempty.2.2.2 "far away" none (by decide) (by decide)⟩

/-- C6: `mapCategory` returns the mapped category of the first tag, in
input order, found in the lookup table; on the spec's example list the
answer is Cafe, not Restaurant. -/
theorem c6_first_matching_tag_wins :
    mapCategory ["unknown_tag", "cafe", "restaurant"] = "Cafe" ∧
    ∀ types : List String,
      mapCategory types =
        (Option.bind (firstMappedTag types) fun t =>
          lookupStr t categoryMap).getD "Venue" := by
  refine ⟨by decide, fun types => ?_⟩
  induction types with
  | nil => rfl
  | cons t rest ih =>
    cases h : lookupStr t categoryMap with
    | some c => simp [mapCategory, firstMappedTag, List.find?_cons, h]
    | none => simpa [mapCategory, firstMappedTag, List.find?_cons, h] using ih

/-- C7: `extractDistrict` equals the spec-side single scan of the
fixed ordered district list (the Tokyo list in its entirety before the
Osaka list) over the chosen address, returning the earliest matching
entry; the enriched formatted address is the chosen address when it is
present and non-empty, the rough vicinity string otherwise. -/
theorem c7_extractDistrict_refines_spec :
    (∀ (vicinity : String) (address : Option String),
       extractDistrict vicinity address =
         specExtractDistrict (fullAddressOf vicinity address)) ∧
    (∀ vicinity a : String, a ≠ "" →
       fullAddressOf vicinity (some a) = a) ∧
    (∀ vicinity : String, fullAddressOf vicinity none = vicinity) := by
  refine ⟨fun vicinity address => ?_, fun vicinity a ha => ?_, fun _ => rfl⟩
  · dsimp only [extractDistrict, specExtractDistrict, allKnownDistricts]
    rw [List.find?_append, firstIncluded_eq_find?, firstIncluded_eq_find?]
    cases h1 : List.find?
        (fun d => strIncludes (fullAddressOf vicinity address) d) districts with
    | some d => simp [h1]
    | none =>
      cases h2 : List.find?
          (fun d => strIncludes (fullAddressOf vicinity address) d)
          osakaDistricts with
      | some d => simp [h1, h2]
      | none => simp [h1, h2]
  · simp [fullAddressOf, ha]

/-- Witness for C7 at concrete inputs: the scan agrees with the
spec-side definition on an Osaka-only address, and a present non-empty
formatted address is the one chosen. -/
theorem c7_refines_spec_witness :
    extractDistrict "Namba, Osaka" none = specExtractDistrict "Namba, Osaka" ∧
    fullAddressOf "Chuo, Ginza, Tokyo" (some "1-1 Dotonbori, Osaka") =
      "1-1 Dotonbori, Osaka" :=
  ⟨c7_extractDistrict_refines_spec.1 "Namba, Osaka" none,
   c7_extractDistrict_refines_spec.2.1 "Chuo, Ginza, Tokyo"
     "1-1 Dotonbori, Osaka" (by decide)⟩

/-- C8: `searchPlaces` fails exactly when the upstream status is
neither OK nor ZERO_RESULTS; on either of those statuses it succeeds
with the (possibly empty, possibly absent) candidate list. -/
theorem c8_searchPlaces_error_iff_bad_status (data : GooglePlacesResponse) :
    ((∃ e, searchPlacesResp data = Except.error e) ↔
      data.status ≠ "OK" ∧ data.status ≠ "ZERO_RESULTS") ∧
    (data.status = "OK" ∨ data.status = "ZERO_RESULTS" →
      searchPlacesResp data = Except.ok (data.results.getD [])) := by
  by_cases h : data.status ≠ "OK" ∧ data.status ≠ "ZERO_RESULTS"
  · have herr : searchPlacesResp data =
        Except.error ("Google Places API error: " ++ data.status) := by
      unfold searchPlacesResp
      rw [if_pos h]
    refine ⟨⟨fun _ => h, fun _ => ⟨_, herr⟩⟩, fun hok => ?_⟩
    rcases hok with h1 | h1
    · exact absurd h1 h.1
    · exact absurd h1 h.2
  · have hok : searchPlacesResp data = Except.ok (data.results.getD []) := by
      unfold searchPlacesResp
      rw [if_neg h]
    refine ⟨⟨fun he => ?_, fun hc => absurd hc h⟩, fun _ => hok⟩
    rcases he with ⟨e, he⟩
    rw [hok] at he
    exact absurd he (by simp)

/-- Witness for C8 at a concrete input: a ZERO_RESULTS response with
the results field absent succeeds with the empty candidate list. -/
theorem c8_zero_results_witness :
    searchPlacesResp { results := none, status := "ZERO_RESULTS" } =
      Except.ok [] :=
  (c8_searchPlaces_error_iff_bad_status
    { results := none, status := "ZERO_RESULTS" }).2 (Or.inr rfl)

/-- C2 counterexample: under `u2` the third Ginza query fails with
OVER_QUERY_LIMIT and it is the only failing query of the run; the
other queries' candidates are inserted, yet the RunResult's errors
list has zero entries — not the exactly one entry the claim states. -/
theorem c2_errors_list_counterexample :
    (u2.search "designer boutique Ginza" "35.6717,139.7647" 1500).status =
      "OVER_QUERY_LIMIT" ∧
    (ginzaQueries.filter fun q =>
      searchFailed (u2.search q "35.6717,139.7647" 1500)).length = 1 ∧
    (seedDatabase u2 [Area.ginza] []).1 = [venueA, venueB] ∧
    ¬ (seedDatabase u2 [Area.ginza] []).2.errors.length = 1 := by
  decide

/-- C2 as amended: when the Search call for one query fails, every
other query is still attempted and its successful candidates still
inserted — the run is identical to the run without the failed query —
but the failure is only logged to the console: it contributes no entry
to the RunResult's errors list, which stays empty. -/
theorem c2_failed_query_isolated_errors_unrecorded (u : Upstream)
    (location : String) (radius : Nat) (db : DB) (qs : List String) (i : Nat)
    (hi : i < qs.length)
    (h1 : (u.search (qs.get ⟨i, hi⟩) location radius).status ≠ "OK")
    (h2 : (u.search (qs.get ⟨i, hi⟩) location radius).status ≠ "ZERO_RESULTS") :
    seedArea u qs location radius db =
      seedArea u (qs.eraseIdx i) location radius db ∧
    ∀ (areas : List Area) (db0 : DB),
      (seedDatabase u areas db0).2.errors = [] := by
  constructor
  · rw [seedArea_eq, seedArea_eq,
      areaVenues_eraseIdx u location radius qs i hi h1 h2]
  · intro areas db0
    exact seedDatabase_errors_nil u areas db0

/-- Witness for C2's amended statement under `u2`: dropping the failed
third Ginza query gives the identical run, and the errors list of the
run is empty. -/
theorem c2_failed_query_witness :
    seedArea u2 ginzaQueries "35.6717,139.7647" 1500 [] =
      seedArea u2 (ginzaQueries.eraseIdx 2) "35.6717,139.7647" 1500 [] ∧
    (seedDatabase u2 [Area.ginza] []).2.errors = [] :=
  ⟨(c2_failed_query_isolated_errors_unrecorded u2 "35.6717,139.7647" 1500 []
      ginzaQueries 2 (by decide) (by decide) (by decide)).1,
   (c2_failed_query_isolated_errors_unrecorded u2 "35.6717,139.7647" 1500 []
      ginzaQueries 2 (by decide) (by decide) (by decide)).2 [Area.ginza] []⟩

/-- C9 counterexample: a POST with no API key in the body against an
environment with no API key secret (and a configured DB binding)
returns HTTP 400 — a status the claim says the trigger never
returns. -/
theorem c9_status_400_counterexample :
    ¬ ((postSeed { areas := none, apiKey := none }
          { googlePlacesApiKey := none, hasDB := true }
          (Except.ok rr0)).status = 200 ∨
       (postSeed { areas := none, apiKey := none }
          { googlePlacesApiKey := none, hasDB := true }
          (Except.ok rr0)).status = 500) := by
  decide

/-- C9 as amended: the trigger returns 400 when neither the body nor
the environment supplies a (non-empty) API key; 500 when the DB
binding is missing, and 500 when the run throws before producing any
RunResult; otherwise 200 with the success flag reflecting the
run-level outcome.  No status outside these three occurs. -/
theorem c9_amended_status_characterization (body : SeedRequestBody)
    (env : SeedEnv) (run : Except String RunResult) :
    (jsTruthy (effectiveApiKey body env) = false →
      postSeed body env run =
        { status := 400, success := none, errors := none }) ∧
    (jsTruthy (effectiveApiKey body env) = true → env.hasDB = false →
      postSeed body env run =
        { status := 500, success := none, errors := none }) ∧
    (∀ e, jsTruthy (effectiveApiKey body env) = true → env.hasDB = true →
      run = Except.error e →
      postSeed body env run =
        { status := 500, success := none, errors := none }) ∧
    (∀ results, jsTruthy (effectiveApiKey body env) = true →
      env.hasDB = true → run = Except.ok results →
      postSeed body env run =
        { status := 200, success := some results.success,
          errors := some results.errors }) := by
  refine ⟨fun h => ?_, fun h hdb => ?_, fun e h hdb hrun => ?_,
    fun results h hdb hrun => ?_⟩
  · simp [postSeed, h]
  · simp [postSeed, h, hdb]
  · subst hrun
    simp [postSeed, h, hdb]
  · subst hrun
    simp [postSeed, h, hdb]

/-- Witness for C9's amended statement: each of the four status
branches at a concrete input. -/
theorem c9_amended_witness :
    postSeed { areas := none, apiKey := none }
        { googlePlacesApiKey := none, hasDB := true } (Except.ok rr0) =
      { status := 400, success := none, errors := none } ∧
    postSeed { areas := none, apiKey := some "k" }
        { googlePlacesApiKey := none, hasDB := false } (Except.ok rr0) =
      { status := 500, success := none, errors := none } ∧
    postSeed { areas := none, apiKey := some "k" }
        { googlePlacesApiKey := none, hasDB := true }
        (Except.error "storage unreachable") =
      { status := 500, success := none, errors := none } ∧
    postSeed { areas := none, apiKey := some "k" }
        { googlePlacesApiKey := none, hasDB := true } (Except.ok rr0) =
      { status := 200, success := some true, errors := some [] } :=
  ⟨(c9_amended_status_characterization _ _ _).1 (by decide),
   (c9_amended_status_characterization _ _ _).2.1 (by decide) rfl,
   (c9_amended_status_characterization _ _ _).2.2.1 "storage unreachable"
     (by decide) rfl rfl,
   (c9_amended_status_characterization _ _ _).2.2.2 rr0 (by decide) rfl rfl⟩

/-- C10: an editorial summary overview that is present but empty is
treated exactly like an absent one (the JavaScript falsiness of the
empty string), and every venue built by `convertToVenue` has a
non-empty description. -/
theorem c10_empty_overview_like_absent_description_nonempty :
    (∀ (place : GooglePlaceResult) (fa : Option String),
       convertToVenue
           (some { formatted_address := fa,
                   editorial_summary_overview := some "" }) place =
         convertToVenue
           (some { formatted_address := fa,
                   editorial_summary_overview := none }) place) ∧
    (∀ (details : Option PlaceDetails) (place : GooglePlaceResult),
       (convertToVenue details place).description ≠ "") := by
  constructor
  · intro place fa
    rfl
  · intro details place
    rw [convertToVenue_description]
    cases hov : overviewOf details with
    | none =>
      exact jsSubstring_ne_empty (append_sep_ne_empty _ _) (by omega)
    | some s =>
      by_cases hs : s = ""
      · subst hs
        simp only [if_pos rfl]
        exact jsSubstring_ne_empty (append_sep_ne_empty _ _) (by omega)
      · simp only [if_neg hs]
        exact jsSubstring_ne_empty hs (by omega)

end Seeding
